import Mathlib

set_option autoImplicit false

namespace TaskApp

/-! Shallow embedding of the task-tracking REST API: auth routes, token
middleware, task routes and comment routes, with MongoDB collections
modelled as association lists and request time passed explicitly. -/

/-- JS String.prototype.split with a single-space separator, applied to the
character list of a header string, as used in authMiddleware.js line 5.
Never returns an empty list; splitting the empty string yields one empty
segment, exactly as in JS. -/
def jsSplitSpace : List Char → List (List Char)
  | [] => [[]]
  | c :: cs =>
    if c = ' ' then [] :: jsSplitSpace cs
    else
      match jsSplitSpace cs with
      | [] => [[c]]
      | h :: t => (c :: h) :: t

/-- Secret used by the auth router to sign login tokens (server source line 63). -/
def JWT_SECRET : String := "your_jwt_secret"

/-- Secret hard-coded in the jwt.verify call of authMiddleware.js line 9. -/
def MIDDLEWARE_SECRET : String := "your_secret_key"

/-- Model of a JSON Web Token: a user-id claim signed with `secret`,
expiring at `exp`. Signature validity is modelled as equality of the signing
and verifying secrets. -/
structure JwtToken where
  userId : Nat
  secret : String
  exp : Nat
deriving DecidableEq

/-- jwt.sign of a payload holding the user id, with a secret and a one-hour
expiresIn window (routes/auth.js login handler). -/
def jwtSign (userId : Nat) (secret : String) (now : Nat) : JwtToken :=
  { userId := userId, secret := secret, exp := now + 3600 }

/-- jwt.verify: succeeds iff the token was signed with `secret` and `now` is
before expiry, returning the embedded user-id claim. -/
def jwtVerify (tok : JwtToken) (secret : String) (now : Nat) : Option Nat :=
  if tok.secret = secret ∧ now < tok.exp then some tok.userId else none

/-- Token extraction of authMiddleware.js line 5, req.headers
split-on-space segment 1, with JS falsiness folded in: an absent header, a
missing second segment, and an empty second segment all yield no token
(line 7 rejects falsy tokens). -/
def extractToken : Option String → Option String
  | none => none
  | some h =>
    match (jsSplitSpace h.toList)[1]? with
    | none => none
    | some t => if t = [] then none else some (String.mk t)

/-- Outcome of the auth middleware: an early response with a status code, or
the request proceeding with the verified identity attached as req.user. -/
inductive AuthResult where
  | reject (status : Nat)
  | proceed (userId : Nat)
deriving DecidableEq

/-- jwt.verify applied to a presented token string: `interp` models JWT
decoding of the raw string (none = malformed), followed by the
signature-and-expiry check against the middleware's secret. -/
def verifyTokenString (interp : String → Option JwtToken) (t : String) (now : Nat) :
    Option Nat :=
  match interp t with
  | none => none
  | some tok => jwtVerify tok MIDDLEWARE_SECRET now

/-- authenticateToken of authMiddleware.js: 401 when no token could be
extracted from the header, 403 when jwt.verify fails, otherwise proceed with
the user attached. -/
def authenticateToken (interp : String → Option JwtToken) (now : Nat)
    (header : Option String) : AuthResult :=
  match extractToken header with
  | none => AuthResult.reject 401
  | some t =>
    match verifyTokenString interp t now with
    | none => AuthResult.reject 403
    | some uid => AuthResult.proceed uid

/-- Mounting of authenticateToken in front of the /tasks and /comments
routers (app.use, server source lines 49-50): on reject the middleware's
status is the response and the store is untouched; on proceed the route
handler runs with the verified identity. -/
def gatedRoute {σ : Type} (interp : String → Option JwtToken) (now : Nat)
    (header : Option String) (db : σ) (handle : Nat → σ → Nat × σ) : Nat × σ :=
  match authenticateToken interp now header with
  | AuthResult.reject s => (s, db)
  | AuthResult.proceed uid => handle uid db






/-- Model of bcrypt.hash on a present string: a fixed injective one-way
derivation (hash internals are outside the embedding's scope; only which
hash a record stores matters to the claims). -/
def bcryptHashStr (pw : String) : String := "$2b$10$" ++ pw

/-- bcrypt.hash over a possibly-missing body field: hashing an undefined
password throws in bcrypt, modelled as none. -/
def bcryptHash : Option String → Option String
  | none => none
  | some pw => some (bcryptHashStr pw)

/-- bcrypt.compare of a candidate body field against a stored hash. -/
def bcryptCompare (input : Option String) (hash : String) : Bool :=
  match input with
  | none => false
  | some pw => bcryptHashStr pw == hash

/-- Stored user document (mongodb/user.js insertOne): _id assigned at
insertion, username as stored (none models a null field written from an
undefined body value), password holding the bcrypt hash. -/
structure UserRec where
  _id : Nat
  username : Option String
  password : String
deriving DecidableEq

/-- Users collection in insertion order. -/
abbrev UserDB := List UserRec

/-- findOne on the users collection by username (mongodb/user.js
findUserByUsername); an undefined query value is serialized as null and
matches a stored null. -/
def findUserByUsername (db : UserDB) (q : Option String) : Option UserRec :=
  db.find? (fun u => u.username == q)

/-- createUser of mongodb/user.js: duplicate check, bcrypt hash (throws on
a missing password), insertOne returning the new id; error models the
thrown exception. -/
def createUser (db : UserDB) (username password : Option String) :
    Except String (UserDB × Nat) :=
  match findUserByUsername db username with
  | some _ => Except.error ("Username already exists")
  | none =>
    match bcryptHash password with
    | none => Except.error ("data and salt arguments required")
    | some h =>
      Except.ok (db ++ [{ _id := db.length, username := username, password := h }],
        db.length)

/-- POST /auth/register handler (auth router lines 97-112): 400 when the
username already exists, 500 when createUser throws, else 201. Returns the
response status and the resulting users collection. -/
def registerHandler (db : UserDB) (username password : Option String) :
    Nat × UserDB :=
  match findUserByUsername db username with
  | some _ => (400, db)
  | none =>
    match createUser db username password with
    | Except.error _ => (500, db)
    | Except.ok (db2, _) => (201, db2)

/-- POST /auth/login handler (auth router lines 146-161): 401 unless the
user exists and the password compares, otherwise a token signed with
JWT_SECRET embedding the user's id, one-hour expiry. -/
def loginHandler (db : UserDB) (username password : Option String) (now : Nat) :
    Nat × Option JwtToken :=
  match findUserByUsername db username with
  | none => (401, none)
  | some user =>
    if bcryptCompare password user.password then
      (200, some (jwtSign user._id JWT_SECRET now))
    else (401, none)

/-- Fold a sequence of register requests over the users collection, keeping
only the evolving collection. -/
def runRegisters (db : UserDB) (attempts : List (Option String × Option String)) :
    UserDB :=
  attempts.foldl (fun d a => (registerHandler d a.1 a.2).2) db

/-- Hex-digit test for ObjectId validation. -/
def isHexChar (c : Char) : Bool :=
  c.isDigit || ('a' ≤ c && c ≤ 'f') || ('A' ≤ c && c ≤ 'F')

/-- ObjectId.isValid of the mongodb driver: a 12-character string or a
24-character hex string. -/
def isValidObjectId (s : String) : Bool :=
  s.length == 12 || (s.length == 24 && s.toList.all isHexChar)

/-- findOne by _id on a collection keyed by id string: first matching
document. -/
def lookupById {α : Type} (db : List (String × α)) (id : String) : Option α :=
  match db with
  | [] => none
  | (i, v) :: rest => if i = id then some v else lookupById rest id

/-- updateOne by _id: apply the update to the first document whose id
matches, leaving every other document in place. -/
def updateFirst {α : Type} (db : List (String × α)) (id : String) (f : α → α) :
    List (String × α) :=
  match db with
  | [] => []
  | (i, v) :: rest =>
    if i = id then (i, f v) :: rest else (i, v) :: updateFirst rest id f




/-- Empty string constant, used for Option defaults. -/
def emptyStr : String := ""

/-- JS truthiness of a possibly-missing string body field: undefined and
the empty string are falsy. -/
def truthyStr : Option String → Bool
  | none => false
  | some s => !(s == "")

/-- JS truthiness of a possibly-missing numeric timestamp body field:
undefined and 0 are falsy. -/
def truthyNat : Option Nat → Bool
  | none => false
  | some n => !(n == 0)

/-- Request body for the task routes; none models an absent field. Dates
are modelled as numeric timestamps, with the new Date conversion the
identity on them. -/
structure TaskBody where
  title : Option String
  description : Option String
  status : Option String
  assignedTo : Option String
  dueDate : Option Nat
  priority : Option String
  createdBy : Option String
  tags : Option (List String)
  comments : Option (List String)
deriving DecidableEq

/-- Stored task document as written by the task routes. -/
structure Task where
  title : String
  description : String
  status : String
  assignedTo : String
  dueDate : Nat
  priority : String
  tags : List String
  comments : List String
  createdBy : String
  createdAt : Nat
  updatedAt : Nat
deriving DecidableEq

/-- Tasks collection in insertion order, keyed by _id string. -/
abbrev TaskDB := List (String × Task)

/-- Required-field presence check of POST /tasks (tasks router line 164):
plain JS truthiness of the seven destructured fields, with no check of the
status or priority value sets. -/
def postTaskValid (b : TaskBody) : Bool :=
  truthyStr b.title && truthyStr b.description && truthyStr b.status &&
  truthyStr b.assignedTo && truthyNat b.dueDate && truthyStr b.priority &&
  truthyStr b.createdBy

/-- Document inserted by POST /tasks (tasks router lines 170-182): the body
fields, the destructuring defaults for tags and comments, and both
timestamps stamped at the request's time. -/
def mkTask (b : TaskBody) (now : Nat) : Task :=
  { title := b.title.getD emptyStr
    description := b.description.getD emptyStr
    status := b.status.getD emptyStr
    assignedTo := b.assignedTo.getD emptyStr
    dueDate := b.dueDate.getD 0
    priority := b.priority.getD emptyStr
    tags := b.tags.getD []
    comments := b.comments.getD []
    createdBy := b.createdBy.getD emptyStr
    createdAt := now
    updatedAt := now }

/-- POST /tasks handler: 400 unless every required field is truthy, else
insertOne under a store-generated fresh id. -/
def postTask (db : TaskDB) (b : TaskBody) (newId : String) (now : Nat) :
    Nat × TaskDB :=
  if postTaskValid b then (201, db ++ [(newId, mkTask b now)]) else (400, db)

/-- GET /tasks/:id handler (tasks router lines 120-140): id-format check,
then findOne, 404 on no match. -/
def getTaskById (db : TaskDB) (id : String) : Nat × Option Task :=
  if !(isValidObjectId id) then (400, none)
  else
    match lookupById db id with
    | none => (404, none)
    | some t => (200, some t)

/-- Required-field presence check of PUT /tasks/:id (line 228): createdBy
is not among the destructured update fields. -/
def putTaskValid (b : TaskBody) : Bool :=
  truthyStr b.title && truthyStr b.description && truthyStr b.status &&
  truthyStr b.assignedTo && truthyNat b.dueDate && truthyStr b.priority

/-- Update document of PUT /tasks/:id (lines 234-244): overwrite the six
mutable fields and stamp updatedAt; every other field of the stored
document is untouched. -/
def setTaskFields (t : Task) (b : TaskBody) (now : Nat) : Task :=
  { t with
    title := b.title.getD emptyStr
    description := b.description.getD emptyStr
    status := b.status.getD emptyStr
    assignedTo := b.assignedTo.getD emptyStr
    dueDate := b.dueDate.getD 0
    priority := b.priority.getD emptyStr
    updatedAt := now }

/-- PUT /tasks/:id handler (lines 218-257): id-format check, presence
check, updateOne with the matchedCount test deciding 404. -/
def putTask (db : TaskDB) (id : String) (b : TaskBody) (now : Nat) :
    Nat × TaskDB :=
  if !(isValidObjectId id) then (400, db)
  else if !(putTaskValid b) then (400, db)
  else
    match lookupById db id with
    | none => (404, db)
    | some _ => (200, updateFirst db id (fun t => setTaskFields t b now))

/-- Status values the Task swagger schema in the tasks router declares:
enum pending, completed. -/
def validStatus (s : String) : Bool := s == "pending" || s == "completed"

/-- Priority values the Task swagger schema declares: enum low, medium,
high. -/
def validPriority (s : String) : Bool := s == "low" || s == "medium" || s == "high"

/-- Stored comment document (comments router POST, lines 138-142): only
taskId, content and createdAt are written at creation; updatedAt is a field
no comment route ever writes, kept as an Option to record its absence in
the document. -/
structure Comment where
  taskId : String
  content : String
  createdAt : Nat
  updatedAt : Option Nat
deriving DecidableEq

/-- Comments collection in insertion order, keyed by _id string. -/
abbrev CommentDB := List (String × Comment)

/-- POST /comments handler (comments router lines 129-149). -/
def postComment (db : CommentDB) (taskId content : Option String) (newId : String)
    (now : Nat) : Nat × CommentDB :=
  if truthyStr taskId && truthyStr content then
    (201, db ++ [(newId,
      { taskId := taskId.getD emptyStr
        content := content.getD emptyStr
        createdAt := now
        updatedAt := none })])
  else (400, db)

/-- PUT /comments/:id handler (comments router lines 180-213): id-format
check, presence check, then updateOne whose update document holds only
taskId and content — no timestamp is written. -/
def putComment (db : CommentDB) (id : String) (taskId content : Option String) :
    Nat × CommentDB :=
  if !(isValidObjectId id) then (400, db)
  else if !(truthyStr taskId && truthyStr content) then (400, db)
  else
    match lookupById db id with
    | none => (404, db)
    | some _ =>
      (200, updateFirst db id (fun c =>
        { c with
          taskId := taskId.getD emptyStr
          content := content.getD emptyStr }))

/-- Fixture: a well-formed 24-character hex ObjectId string. -/
def idA : String := "aaaaaaaaaaaaaaaaaaaaaaaa"

/-- Fixture: a second well-formed 24-character hex ObjectId string. -/
def idB : String := "bbbbbbbbbbbbbbbbbbbbbbbb"

/-- Fixture: a task body that is fully present but whose status and
priority lie outside the enumerations the swagger schema declares. -/
def bogusTaskBody : TaskBody :=
  { title := some ("t")
    description := some ("d")
    status := some ("bogus")
    assignedTo := some ("a")
    dueDate := some 1
    priority := some ("urgent")
    createdBy := some ("u")
    tags := none
    comments := none }

/-- Fixture: a fully-present task body with in-enumeration status and
priority. -/
def okTaskBody : TaskBody :=
  { title := some ("t1")
    description := some ("d1")
    status := some ("pending")
    assignedTo := some ("alice")
    dueDate := some 100
    priority := some ("low")
    createdBy := some ("bob")
    tags := some (["x", "y"])
    comments := some ([]) }

/-- Fixture: a second fully-present task body used for updates. -/
def okTaskBody2 : TaskBody :=
  { title := some ("t2")
    description := some ("d2")
    status := some ("completed")
    assignedTo := some ("carol")
    dueDate := some 200
    priority := some ("high")
    createdBy := none
    tags := none
    comments := none }

/-! Helper lemmas. -/

theorem jsSplitSpace_no_space (cs : List Char) (h : ' ' ∉ cs) :
    jsSplitSpace cs = [cs] := by
  induction cs with
  | nil => rfl
  | cons c cs ih =>
    simp only [List.mem_cons, not_or] at h
    simp only [jsSplitSpace]
    rw [if_neg (fun hc => h.1 hc.symm), ih h.2]

theorem jsSplitSpace_append (s t : List Char) (h : ' ' ∉ s) :
    jsSplitSpace (s ++ ' ' :: t) = s :: jsSplitSpace t := by
  induction s with
  | nil => simp [jsSplitSpace]
  | cons c s ih =>
    simp only [List.mem_cons, not_or] at h
    simp only [List.cons_append, jsSplitSpace, List.append_eq]
    rw [if_neg (fun hc => h.1 hc.symm), ih h.2]

theorem toList_space_concat (w tok : String) :
    (w ++ " " ++ tok).toList = w.toList ++ ' ' :: tok.toList := by
  simp [String.toList, String.data_append]

theorem extractToken_scheme_eq (w tok : String) (hw : ' ' ∉ w.toList) :
    extractToken (some (w ++ " " ++ tok)) =
      extractToken (some ("Bearer" ++ " " ++ tok)) := by
  have hb : ' ' ∉ ("Bearer" : String).toList := by decide
  simp only [extractToken, toList_space_concat, jsSplitSpace_append _ _ hw,
    jsSplitSpace_append _ _ hb, List.getElem?_cons_succ]

theorem extractToken_no_space (h : String) (hs : ' ' ∉ h.toList) :
    extractToken (some h) = none := by
  simp only [extractToken, jsSplitSpace_no_space _ hs]
  rfl

theorem lookupById_append_fresh {α : Type} (db : List (String × α)) (id : String)
    (v : α) (h : lookupById db id = none) :
    lookupById (db ++ [(id, v)]) id = some v := by
  induction db with
  | nil => simp [lookupById]
  | cons p rest ih =>
    obtain ⟨i, w⟩ := p
    simp only [lookupById, List.cons_append] at h ⊢
    by_cases hi : i = id
    · rw [if_pos hi] at h
      cases h
    · rw [if_neg hi] at h ⊢
      exact ih h

theorem updateFirst_append_fresh {α : Type} (db : List (String × α)) (id : String)
    (v : α) (f : α → α) (h : lookupById db id = none) :
    updateFirst (db ++ [(id, v)]) id f = db ++ [(id, f v)] := by
  induction db with
  | nil => simp [updateFirst]
  | cons p rest ih =>
    obtain ⟨i, w⟩ := p
    simp only [lookupById] at h
    by_cases hi : i = id
    · rw [if_pos hi] at h
      cases h
    · rw [if_neg hi] at h
      simp only [List.cons_append, updateFirst, if_neg hi, List.append_eq, ih h]

theorem lookupById_updateFirst {α : Type} (db : List (String × α)) (id : String)
    (f : α → α) (c : α) (h : lookupById db id = some c) :
    lookupById (updateFirst db id f) id = some (f c) := by
  induction db with
  | nil => cases h
  | cons p rest ih =>
    obtain ⟨i, w⟩ := p
    simp only [lookupById] at h
    by_cases hi : i = id
    · rw [if_pos hi] at h
      cases h
      simp only [updateFirst, if_pos hi, lookupById, if_pos hi]
    · rw [if_neg hi] at h
      simp only [updateFirst, if_neg hi, lookupById, if_neg hi]
      exact ih h

/-! Claim theorems. -/

/-- C1: for a registered user, login succeeds and issues a token signed
with JWT_SECRET that verifies under the signing secret before expiry, yet
the auth middleware — which verifies against MIDDLEWARE_SECRET, a different
hard-coded string — rejects that very token with 403 instead of accepting
it and returning the embedded identity. This exhibits the code's divergence
from the claim: the two secrets differ, so no issued token is ever
accepted. -/
theorem login_token_rejected_by_middleware
    (db : UserDB) (u p : String) (user : UserRec) (t0 now : Nat)
    (hdr s : String) (interp : String → Option JwtToken)
    (hfind : findUserByUsername db (some u) = some user)
    (hcmp : bcryptCompare (some p) user.password = true)
    (hexp : now < t0 + 3600)
    (hex : extractToken (some hdr) = some s)
    (hinterp : interp s = some (jwtSign user._id JWT_SECRET t0)) :
    loginHandler db (some u) (some p) t0 =
      (200, some (jwtSign user._id JWT_SECRET t0)) ∧
    jwtVerify (jwtSign user._id JWT_SECRET t0) JWT_SECRET now = some user._id ∧
    authenticateToken interp now (some hdr) = AuthResult.reject 403 := by
  have hne : JWT_SECRET ≠ MIDDLEWARE_SECRET := by decide
  refine ⟨?_, ?_, ?_⟩
  · simp [loginHandler, hfind, hcmp]
  · simp [jwtVerify, jwtSign, hexp]
  · simp [authenticateToken, hex, verifyTokenString, hinterp, jwtVerify, jwtSign, hne]

/-- C1 witness: the failure at a concrete input — user id 0, token signed
at time 5, presented at time 6, well before expiry. -/
theorem login_token_rejected_by_middleware_witness :
    loginHandler [⟨0, some ("alice"), bcryptHashStr ("pw")⟩] (some ("alice"))
        (some ("pw")) 5 = (200, some (jwtSign 0 JWT_SECRET 5)) ∧
    jwtVerify (jwtSign 0 JWT_SECRET 5) JWT_SECRET 6 = some 0 ∧
    authenticateToken
        (fun str => if str = "tok" then some (jwtSign 0 JWT_SECRET 5) else none) 6
        (some ("Bearer tok")) = AuthResult.reject 403 :=
  login_token_rejected_by_middleware
    ([⟨0, some ("alice"), bcryptHashStr ("pw")⟩]) ("alice") ("pw")
    (⟨0, some ("alice"), bcryptHashStr ("pw")⟩) 5 6 ("Bearer tok") ("tok")
    (fun str => if str = "tok" then some (jwtSign 0 JWT_SECRET 5) else none)
    (by decide) (by decide) (by decide) (by decide) (by decide)

/-- C9: the middleware splits the Authorization header on spaces and takes
the second segment without inspecting the scheme word, so any space-free
scheme word followed by a token behaves exactly like the Bearer scheme with
the same token, and a header containing no space at all yields 401, never
403. -/
theorem token_extraction_ignores_scheme
    (w tok : String) (hw : ' ' ∉ w.toList) :
    extractToken (some (w ++ " " ++ tok)) =
      extractToken (some ("Bearer" ++ " " ++ tok)) ∧
    (∀ interp now, authenticateToken interp now (some (w ++ " " ++ tok)) =
      authenticateToken interp now (some ("Bearer" ++ " " ++ tok))) ∧
    (∀ h interp now, ' ' ∉ h.toList →
      authenticateToken interp now (some h) = AuthResult.reject 401) := by
  have hx := extractToken_scheme_eq w tok hw
  refine ⟨hx, fun interp now => ?_, fun h interp now hs => ?_⟩
  · simp only [authenticateToken, hx]
  · simp only [authenticateToken, extractToken_no_space h hs]

/-- C9 witness: a Token scheme behaves like Bearer on a concrete token,
and a concrete space-free header is answered 401. -/
theorem token_extraction_ignores_scheme_witness :
    authenticateToken (fun _ => none) 0 (some (("Token") ++ " " ++ ("abc"))) =
      authenticateToken (fun _ => none) 0 (some ("Bearer" ++ " " ++ ("abc"))) ∧
    authenticateToken (fun _ => none) 0 (some ("noheader")) =
      AuthResult.reject 401 :=
  ⟨(token_extraction_ignores_scheme ("Token") ("abc") (by decide)).2.1
      (fun _ => none) 0,
   (token_extraction_ignores_scheme ("Token") ("abc") (by decide)).2.2
      ("noheader") (fun _ => none) 0 (by decide)⟩

/-- C2 counterexample: a present Authorization header that contains no
space is answered 401 by the gate, not 403, and the route handler (which
would have produced status 999 here) never runs — refuting the claim's
case split that a present header either yields 403 or proceeds. -/
theorem auth_gate_present_header_401 :
    gatedRoute (fun _ => none) 0 (some ("Bearer")) ([] : TaskDB)
      (fun _ d => (999, d)) = (401, []) ∧
    (401 : Nat) ≠ 403 ∧ (401 : Nat) ≠ 999 := by
  refine ⟨by decide, by decide, by decide⟩

/-- C2 amended: an absent header gives 401 with the store untouched; a
present header from which no token can be extracted (no nonempty second
space-separated segment) also gives 401 with the store untouched; an
extracted token that fails verification gives 403 with the store untouched;
a verified token proceeds to the route handler with the verified identity
attached. -/
theorem auth_gate_dispatch {σ : Type} (interp : String → Option JwtToken)
    (now : Nat) (header : Option String) (db : σ) (handle : Nat → σ → Nat × σ) :
    (header = none → gatedRoute interp now header db handle = (401, db)) ∧
    (extractToken header = none →
      gatedRoute interp now header db handle = (401, db)) ∧
    (∀ s, extractToken header = some s → verifyTokenString interp s now = none →
      gatedRoute interp now header db handle = (403, db)) ∧
    (∀ s uid, extractToken header = some s →
      verifyTokenString interp s now = some uid →
      gatedRoute interp now header db handle = handle uid db) := by
  refine ⟨?_, ?_, ?_, ?_⟩
  · rintro rfl
    rfl
  · intro hx
    simp [gatedRoute, authenticateToken, hx]
  · intro s hx hv
    simp [gatedRoute, authenticateToken, hx, hv]
  · intro s uid hx hv
    simp [gatedRoute, authenticateToken, hx, hv]

/-- C2 witness: the four dispatch cases at concrete inputs over the task
store: absent header, header with no extractable token, failing token, and
a verifying token whose identity reaches the handler. -/
theorem auth_gate_dispatch_witness :
    gatedRoute (fun _ => none) 0 none ([] : TaskDB) (fun _ d => (200, d)) =
      (401, []) ∧
    gatedRoute (fun _ => none) 0 (some ("Bearer")) ([] : TaskDB)
      (fun _ d => (200, d)) = (401, []) ∧
    gatedRoute (fun _ => none) 0 (some ("Bearer bad")) ([] : TaskDB)
      (fun _ d => (200, d)) = (403, []) ∧
    gatedRoute (fun s => if s = "tok" then some (jwtSign 7 MIDDLEWARE_SECRET 0)
        else none) 1 (some ("Bearer tok")) ([] : TaskDB)
      (fun uid d => (200 + uid, d)) = (207, []) :=
  ⟨(auth_gate_dispatch (fun _ => none) 0 none ([] : TaskDB)
      (fun _ d => (200, d))).1 rfl,
   (auth_gate_dispatch (fun _ => none) 0 (some ("Bearer")) ([] : TaskDB)
      (fun _ d => (200, d))).2.1 (by decide),
   (auth_gate_dispatch (fun _ => none) 0 (some ("Bearer bad")) ([] : TaskDB)
      (fun _ d => (200, d))).2.2.1 ("bad") (by decide) rfl,
   (auth_gate_dispatch (fun s => if s = "tok" then
        some (jwtSign 7 MIDDLEWARE_SECRET 0) else none) 1 (some ("Bearer tok"))
      ([] : TaskDB) (fun uid d => (200 + uid, d))).2.2.2 ("tok") 7
      (by decide) (by decide)⟩

/-- C3 counterexample: creating a comment at time 5 and then successfully
updating it (200) leaves the stored document with no updatedAt stamp at
all — the field stays absent — while taskId and content are overwritten;
the claim that the update stamps updatedAt to the update time is false. -/
theorem comment_update_no_updatedAt_stamp :
    (putComment (postComment [] (some ("t1")) (some ("hello")) idA 5).2 idA
      (some ("t2")) (some ("edited"))).1 = 200 ∧
    lookupById (putComment (postComment [] (some ("t1")) (some ("hello")) idA 5).2
        idA (some ("t2")) (some ("edited"))).2 idA =
      some { taskId := ("t2"), content := ("edited"), createdAt := 5, updatedAt := none } := by
  refine ⟨by decide, by decide⟩

/-- C3 amended: a successful comment update via PUT /comments/:id
overwrites taskId and content only; createdAt is preserved and no updatedAt
stamp is written — the updatedAt field keeps whatever it was, i.e. stays
absent for documents the comment routes created. -/
theorem comment_update_overwrites_fields_only
    (db : CommentDB) (id tid cont : String) (c : Comment)
    (hid : isValidObjectId id = true)
    (htid : tid ≠ "") (hcont : cont ≠ "")
    (hc : lookupById db id = some c) :
    (putComment db id (some tid) (some cont)).1 = 200 ∧
    lookupById (putComment db id (some tid) (some cont)).2 id =
      some { taskId := tid
             content := cont
             createdAt := c.createdAt
             updatedAt := c.updatedAt } := by
  obtain ⟨ct, cc, cca, cua⟩ := c
  have key := lookupById_updateFirst db id
    (fun x => { x with
      taskId := (some tid).getD emptyStr
      content := (some cont).getD emptyStr }) (⟨ct, cc, cca, cua⟩ : Comment) hc
  constructor
  · simp [putComment, hid, truthyStr, htid, hcont, hc]
  · simp only [putComment, hid, Bool.not_true, Bool.false_eq_true, if_false]
    have htr : (truthyStr (some tid) && truthyStr (some cont)) = true := by
      simp [truthyStr, htid, hcont]
    rw [htr]
    simp only [Bool.not_true, Bool.false_eq_true, if_false, hc]
    rw [key]
    simp

/-- C3 witness: the amended behaviour at a concrete store holding one
comment created at time 5. -/
theorem comment_update_overwrites_fields_only_witness :
    (putComment ([(idA, ⟨("t1"), ("hello"), 5, none⟩)]) idA (some ("t2"))
      (some ("edited"))).1 = 200 ∧
    lookupById (putComment ([(idA, ⟨("t1"), ("hello"), 5, none⟩)]) idA
        (some ("t2")) (some ("edited"))).2 idA =
      some { taskId := ("t2")
             content := ("edited")
             createdAt := 5
             updatedAt := none } :=
  comment_update_overwrites_fields_only
    ([(idA, ⟨("t1"), ("hello"), 5, none⟩)]) idA ("t2") ("edited")
    (⟨("t1"), ("hello"), 5, none⟩) (by decide) (by decide) (by decide) (by decide)

/-- C4: the task routes check only field presence, never membership of
status and priority in the enumerations their own swagger schema declares:
a payload with status bogus and priority urgent is accepted by POST /tasks
(201) and stored verbatim, and the same payload is accepted by
PUT /tasks/:id (200) on the stored record, where the claim requires a 400
validation failure. -/
theorem task_enum_not_validated :
    (postTask [] bogusTaskBody idA 0).1 = 201 ∧
    (lookupById (postTask [] bogusTaskBody idA 0).2 idA).map Task.status =
      some ("bogus") ∧
    (lookupById (postTask [] bogusTaskBody idA 0).2 idA).map Task.priority =
      some ("urgent") ∧
    validStatus ("bogus") = false ∧
    validPriority ("urgent") = false ∧
    (putTask (postTask [] bogusTaskBody idA 0).2 idA bogusTaskBody 1).1 = 200 := by
  refine ⟨by decide, by decide, by decide, by decide, by decide, by decide⟩

/-- C5: for a fully-present task payload, POST /tasks answers 201 and a
subsequent GET /tasks/:id on the new id answers 200 with a record whose
submitted title, description, status, assignedTo, dueDate, priority, tags
and createdBy round-trip unchanged and whose server-set createdAt equals
its updatedAt (both the request time). -/
theorem create_then_get_roundtrip
    (db : TaskDB) (b : TaskBody) (newId : String) (now : Nat)
    (ti de st asg pr cb : String) (dd : Nat) (tg : List String)
    (h1 : b.title = some ti) (h1x : ti ≠ "")
    (h2 : b.description = some de) (h2x : de ≠ "")
    (h3 : b.status = some st) (h3x : st ≠ "")
    (h4 : b.assignedTo = some asg) (h4x : asg ≠ "")
    (h5 : b.dueDate = some dd) (h5x : dd ≠ 0)
    (h6 : b.priority = some pr) (h6x : pr ≠ "")
    (h7 : b.createdBy = some cb) (h7x : cb ≠ "")
    (h8 : b.tags = some tg)
    (hid : isValidObjectId newId = true)
    (hfresh : lookupById db newId = none) :
    (postTask db b newId now).1 = 201 ∧
    getTaskById (postTask db b newId now).2 newId =
      (200, some
        { title := ti
          description := de
          status := st
          assignedTo := asg
          dueDate := dd
          priority := pr
          tags := tg
          comments := b.comments.getD []
          createdBy := cb
          createdAt := now
          updatedAt := now }) := by
  have hval : postTaskValid b = true := by
    simp [postTaskValid, truthyStr, truthyNat, h1, h2, h3, h4, h5, h6, h7,
      h1x, h2x, h3x, h4x, h5x, h6x, h7x]
  have hpost : postTask db b newId now = (201, db ++ [(newId, mkTask b now)]) := by
    simp [postTask, hval]
  refine ⟨by rw [hpost], ?_⟩
  rw [hpost]
  simp only [getTaskById, hid, Bool.not_true, Bool.false_eq_true, if_false]
  rw [lookupById_append_fresh db newId _ hfresh]
  simp [mkTask, h1, h2, h3, h4, h5, h6, h7, h8, emptyStr]

/-- C5 witness: round-trip of a concrete payload through a concrete empty
store. -/
theorem create_then_get_roundtrip_witness :
    (postTask [] okTaskBody idA 42).1 = 201 ∧
    getTaskById (postTask [] okTaskBody idA 42).2 idA =
      (200, some
        { title := ("t1")
          description := ("d1")
          status := ("pending")
          assignedTo := ("alice")
          dueDate := 100
          priority := ("low")
          tags := (["x", "y"])
          comments := okTaskBody.comments.getD []
          createdBy := ("bob")
          createdAt := 42
          updatedAt := 42 }) :=
  create_then_get_roundtrip [] okTaskBody idA 42 ("t1") ("d1") ("pending")
    ("alice") ("low") ("bob") 100 (["x", "y"])
    (by decide) (by decide) (by decide) (by decide) (by decide) (by decide)
    (by decide) (by decide) (by decide) (by decide) (by decide) (by decide)
    (by decide) (by decide) (by decide) (by decide) (by decide)

/-- C6: PUT /tasks/:id on a well-formed id that matches no stored task
answers 404 and returns the collection exactly as it was — no partial
write. -/
theorem update_missing_id_not_found
    (db : TaskDB) (id : String) (b : TaskBody) (now : Nat)
    (hid : isValidObjectId id = true)
    (hval : putTaskValid b = true)
    (habs : lookupById db id = none) :
    putTask db id b now = (404, db) := by
  simp [putTask, hid, hval, habs]

/-- C6 witness: a valid absent id against a store holding one other task. -/
theorem update_missing_id_not_found_witness :
    putTask ([(idA, mkTask okTaskBody 0)]) idB okTaskBody2 9 =
      (404, [(idA, mkTask okTaskBody 0)]) :=
  update_missing_id_not_found ([(idA, mkTask okTaskBody 0)]) idB okTaskBody2 9
    (by decide) (by decide) (by decide)

/-- C7: a task created at time t1 and then successfully updated at a later
time t2 gets updatedAt stamped to t2, strictly later than the stored value
t1, while createdAt, tags, comments and createdBy keep their values from
creation. -/
theorem update_preserves_frame
    (db : TaskDB) (b1 b2 : TaskBody) (newId : String) (t1 t2 : Nat)
    (hval1 : postTaskValid b1 = true)
    (hval2 : putTaskValid b2 = true)
    (hid : isValidObjectId newId = true)
    (hfresh : lookupById db newId = none)
    (ht : t1 < t2) :
    ∃ r r' : Task,
      (postTask db b1 newId t1).1 = 201 ∧
      lookupById (postTask db b1 newId t1).2 newId = some r ∧
      (putTask (postTask db b1 newId t1).2 newId b2 t2).1 = 200 ∧
      lookupById (putTask (postTask db b1 newId t1).2 newId b2 t2).2 newId =
        some r' ∧
      r.updatedAt = t1 ∧ r'.updatedAt = t2 ∧ r.updatedAt < r'.updatedAt ∧
      r'.createdAt = r.createdAt ∧ r'.tags = r.tags ∧
      r'.comments = r.comments ∧ r'.createdBy = r.createdBy := by
  have hpost : postTask db b1 newId t1 = (201, db ++ [(newId, mkTask b1 t1)]) := by
    simp [postTask, hval1]
  have hlook1 : lookupById (db ++ [(newId, mkTask b1 t1)]) newId =
      some (mkTask b1 t1) :=
    lookupById_append_fresh db newId _ hfresh
  have hupd : updateFirst (db ++ [(newId, mkTask b1 t1)]) newId
      (fun t => setTaskFields t b2 t2) =
      db ++ [(newId, setTaskFields (mkTask b1 t1) b2 t2)] :=
    updateFirst_append_fresh db newId _ _ hfresh
  have hput : putTask (db ++ [(newId, mkTask b1 t1)]) newId b2 t2 =
      (200, db ++ [(newId, setTaskFields (mkTask b1 t1) b2 t2)]) := by
    simp only [putTask, hid, hval2, Bool.not_true, Bool.false_eq_true, if_false,
      hlook1]
    rw [hupd]
  refine ⟨mkTask b1 t1, setTaskFields (mkTask b1 t1) b2 t2, ?_, ?_, ?_, ?_,
    rfl, rfl, ?_, rfl, rfl, rfl, rfl⟩
  · rw [hpost]
  · rw [hpost]
    exact hlook1
  · rw [hpost, hput]
  · rw [hpost, hput]
    exact lookupById_append_fresh db newId _ hfresh
  · simpa [mkTask, setTaskFields] using ht

/-- C7 witness: the create-update pair at concrete bodies and times 3 and 8. -/
theorem update_preserves_frame_witness :
    ∃ r r' : Task,
      (postTask [] okTaskBody idA 3).1 = 201 ∧
      lookupById (postTask [] okTaskBody idA 3).2 idA = some r ∧
      (putTask (postTask [] okTaskBody idA 3).2 idA okTaskBody2 8).1 = 200 ∧
      lookupById (putTask (postTask [] okTaskBody idA 3).2 idA okTaskBody2 8).2
        idA = some r' ∧
      r.updatedAt = 3 ∧ r'.updatedAt = 8 ∧ r.updatedAt < r'.updatedAt ∧
      r'.createdAt = r.createdAt ∧ r'.tags = r.tags ∧
      r'.comments = r.comments ∧ r'.createdBy = r.createdBy :=
  update_preserves_frame [] okTaskBody okTaskBody2 idA 3 8
    (by decide) (by decide) (by decide) (by decide) (by decide)

/-- Helper for C8: when the username is already present, every register
attempt with that username is a complete no-op on the collection. -/
theorem runRegisters_noop (db : UserDB) (u : String) (r : UserRec)
    (hr : findUserByUsername db (some u) = some r) :
    ∀ attempts : List (Option String × Option String),
      (∀ a ∈ attempts, a.1 = some u) → runRegisters db attempts = db := by
  intro attempts
  induction attempts with
  | nil => intro _; rfl
  | cons a rest ih =>
    intro hall
    have ha := hall a (List.mem_cons_self a rest)
    have hstep : (registerHandler db a.1 a.2).2 = db := by
      rw [ha]
      simp [registerHandler, hr]
    show runRegisters ((registerHandler db a.1 a.2).2) rest = db
    rw [hstep]
    exact ih (fun x hx => hall x (List.mem_cons_of_mem a hx))

/-- C8: registering a username that is already present answers 400 with the
users collection untouched (no insert, no hash write), and any number of
later registration attempts with the same username leaves the collection —
in particular the first user's stored record and its password hash —
exactly as it was. -/
theorem duplicate_register_conflict
    (db : UserDB) (u : String) (r : UserRec) (p : Option String)
    (attempts : List (Option String × Option String))
    (hr : findUserByUsername db (some u) = some r)
    (hall : ∀ a ∈ attempts, a.1 = some u) :
    registerHandler db (some u) p = (400, db) ∧
    runRegisters db attempts = db ∧
    findUserByUsername (runRegisters db attempts) (some u) = some r := by
  have h2 := runRegisters_noop db u r hr attempts hall
  refine ⟨by simp [registerHandler, hr], h2, ?_⟩
  rw [h2]
  exact hr

/-- C8 witness: a store holding alice with the hash of pw1, then three more
attempts on the same username with other passwords. -/
theorem duplicate_register_conflict_witness :
    registerHandler [⟨0, some ("alice"), bcryptHashStr ("pw1")⟩]
      (some ("alice")) (some ("pw2")) =
      (400, [⟨0, some ("alice"), bcryptHashStr ("pw1")⟩]) ∧
    runRegisters [⟨0, some ("alice"), bcryptHashStr ("pw1")⟩]
      ([(some ("alice"), some ("pw2")), (some ("alice"), some ("pw3")),
        (some ("alice"), none)]) =
      [⟨0, some ("alice"), bcryptHashStr ("pw1")⟩] ∧
    findUserByUsername
      (runRegisters [⟨0, some ("alice"), bcryptHashStr ("pw1")⟩]
        ([(some ("alice"), some ("pw2")), (some ("alice"), some ("pw3")),
          (some ("alice"), none)])) (some ("alice")) =
      some (⟨0, some ("alice"), bcryptHashStr ("pw1")⟩) :=
  duplicate_register_conflict
    ([⟨0, some ("alice"), bcryptHashStr ("pw1")⟩]) ("alice")
    (⟨0, some ("alice"), bcryptHashStr ("pw1")⟩) (some ("pw2"))
    ([(some ("alice"), some ("pw2")), (some ("alice"), some ("pw3")),
      (some ("alice"), none)])
    (by decide) (by decide)

/-- C10 counterexample: a register request missing only the username but
carrying a password proceeds through the credential store and succeeds with
201 — the password-hash call does not throw — refuting the claim that every
body missing the username ends in 500. -/
theorem register_missing_username_succeeds :
    (registerHandler [] none (some ("pw"))).1 = 201 ∧
    (registerHandler [] none (some ("pw"))).1 ≠ 500 ∧
    (registerHandler [] none (some ("pw"))).1 ≠ 400 := by
  refine ⟨by decide, by decide, by decide⟩

/-- C10 amended: register performs no field-presence validation. A body
missing the password whose username is not yet registered reaches the
credential store, where bcrypt.hash throws, producing 500 with the
collection unchanged — never a 400 validation error. A body missing only
the username instead completes the insert and answers 201. -/
theorem register_missing_password_500
    (db : UserDB) (u : String)
    (hfresh : findUserByUsername db (some u) = none) :
    registerHandler db (some u) none = (500, db) ∧
    (registerHandler db (some u) none).1 ≠ 400 := by
  have h : registerHandler db (some u) none = (500, db) := by
    simp [registerHandler, createUser, hfresh, bcryptHash]
  refine ⟨h, ?_⟩
  rw [h]
  simp

/-- C10 witness: the missing-password 500 at a concrete fresh username. -/
theorem register_missing_password_500_witness :
    registerHandler [] (some ("bob")) none = (500, []) ∧
    (registerHandler [] (some ("bob")) none).1 ≠ 400 :=
  register_missing_password_500 [] ("bob") (by decide)

end TaskApp
